import Mathlib

/-!
# jsfluids: the mesh query engine (`VTK.h`, `ML.h`)

A shallow embedding of the classes `VTK` and `ML`.

* A `double` is an element of a linearly ordered field `α` (the real-number reading of the
  arithmetic); the not-a-number value and the value of an uninitialised `double` are
  distinguished elements supplied by the library record.
* A C++ `int` is an `Int` wrapped to 32 bits by `toInt32`; a conversion to `size_t` is `toSizeT`
  (32 bits, the wasm32 target of the emscripten build).
* Calls into the VTK library whose result is geometry or numerics (readers, filters, ranges,
  colour mapping) are fields of the record `Library`; the array containers of VTK
  (`vtkDataArray`, `vtkDataSetAttributes`) are modelled concretely.
* Dereferencing a null pointer, reading or writing outside an array and dividing by zero are the
  errors `Err`; a member function returns its result together with the object after the call.
-/

namespace JsFluids

/-! ## Machine integers -/

/-- The value a 32-bit two's complement `int` holds after an arithmetic result `x`: the residue
of `x` modulo `2 ^ 32`, read as negative from `2 ^ 31` on. -/
def toInt32 (x : Int) : Int :=
  if (x % 4294967296).toNat < 2147483648 then x % 4294967296 else x % 4294967296 - 4294967296

/-- Conversion of an integer to `size_t` (32-bit unsigned). -/
def toSizeT (x : Int) : Nat := (x % 4294967296).toNat

/-! ## Errors -/

/-- The ways a member function can go wrong. -/
inductive Err where
  | nullPointer
  | outOfRange
  | divByZero
  deriving DecidableEq, Repr

/-- Dereference of a pointer that may be null. -/
def deref {β : Type} : Option β → Except Err β
  | some b => .ok b
  | none => .error .nullPointer

/-! ## `std::vector<double>` and typed arrays -/

/-- `std::vector::resize(n)`: keep the first `n` elements, value-initialise the new ones. -/
def vecResize {α : Type} [Zero α] (v : List α) (n : Nat) : List α :=
  v.take n ++ List.replicate (n - v.length) 0

/-- `v.at(i) = x`: a checked write. -/
def vecAtSet {α : Type} (v : List α) (i : Nat) (x : α) : Except Err (List α) :=
  if i < v.length then .ok (v.set i x) else .error .outOfRange

/-- `v[i]`: an unchecked read; outside the vector it is undefined behaviour. -/
def vecRead {α : Type} (v : List α) (i : Nat) : Except Err α :=
  match v[i]? with
  | some x => .ok x
  | none => .error .outOfRange

/-- `TypedArray.set(view)` on a typed array `result`: the view overwrites its first entries. -/
def typedArraySet {α : Type} (result view : List α) : Except Err (List α) :=
  if view.length ≤ result.length then .ok (view ++ result.drop view.length)
  else .error .outOfRange

/-- `Float64Array.new_(view.size())` followed by `set(view)`. -/
def typedArrayFrom {α : Type} [Zero α] (view : List α) : Except Err (List α) :=
  typedArraySet (List.replicate view.length 0) view

/-! ## VTK containers -/

/-- A `vtkDataArray`: a name, a number of components and the flat tuple storage. -/
structure DataArray (α : Type) where
  name : String
  nComp : Nat
  values : List α
  deriving DecidableEq, Repr

namespace DataArray

variable {α : Type}

/-- `GetNumberOfTuples`. -/
def numTuples (a : DataArray α) : Nat := a.values.length / a.nComp

/-- `SetNumberOfComponents`: the count is clamped to at least one. -/
def setNumberOfComponents (a : DataArray α) (n : Int) : DataArray α :=
  { a with nComp := if 0 < n then n.toNat else 1 }

/-- `SetNumberOfTuples(n)`: storage for `n` tuples, not initialised (`junk`). -/
def setNumberOfTuples (junk : α) (a : DataArray α) (n : Nat) : DataArray α :=
  { a with values := List.replicate (n * a.nComp) junk }

/-- `GetTuple1(i)`: component 0 of tuple `i`. -/
def getTuple1 (a : DataArray α) (i : Nat) : Except Err α :=
  vecRead a.values (i * a.nComp)

/-- `SetTuple1(i, x)`. -/
def setTuple1 (a : DataArray α) (i : Nat) (x : α) : Except Err (DataArray α) :=
  if i * a.nComp < a.values.length then
    .ok { a with values := a.values.set (i * a.nComp) x }
  else .error .outOfRange

/-- `SetTuple3(i, x, y, z)`. -/
def setTuple3 (a : DataArray α) (i : Nat) (x y z : α) : Except Err (DataArray α) :=
  if i * a.nComp + 2 < a.values.length then
    .ok { a with values :=
      ((a.values.set (i * a.nComp) x).set (i * a.nComp + 1) y).set (i * a.nComp + 2) z }
  else .error .outOfRange

end DataArray

/-- A `vtkDataSetAttributes` (cell data or point data): the arrays and the index of the active
scalars. -/
structure Attributes (α : Type) where
  arrays : List (DataArray α)
  scalars : Option Nat
  deriving DecidableEq, Repr

namespace Attributes

variable {α : Type}

/-- `GetArray(name)`: the first array of that name, null when there is none. -/
def getArray (d : Attributes α) (name : String) : Option (DataArray α) :=
  d.arrays.find? (fun a => a.name == name)

/-- Index of the first array of that name. -/
def indexOf (d : Attributes α) (name : String) : Option Nat :=
  let i := d.arrays.findIdx (fun a => a.name == name)
  if i < d.arrays.length then some i else none

/-- `AddArray(a)`: replaces the array of the same name, appends otherwise. -/
def addArray (d : Attributes α) (a : DataArray α) : Attributes α × Nat :=
  match d.indexOf a.name with
  | some i => ({ d with arrays := d.arrays.set i a }, i)
  | none => ({ d with arrays := d.arrays ++ [a] }, d.arrays.length)

/-- `RemoveArray(index)`: the attribute indices after it move down by one. -/
def removeArray (d : Attributes α) (i : Nat) : Attributes α :=
  { arrays := d.arrays.eraseIdx i
    scalars := match d.scalars with
      | none => none
      | some j => if j = i then none else if i < j then some (j - 1) else some j }

/-- `SetScalars(a)` for an array object `a` that the attributes do not hold yet (a `vtkNew` of
the caller): the current active scalars array, if there is one, is removed, then `a` is added
and made the active scalars. -/
def setScalars (d : Attributes α) (a : DataArray α) : Attributes α :=
  let d1 :=
    match d.scalars with
    | some cur => if cur < d.arrays.length then d.removeArray cur else d
    | none => d
  let r := d1.addArray a
  { r.1 with scalars := some r.2 }

/-- `SetActiveScalars(name)`. -/
def setActiveScalars (d : Attributes α) (name : String) : Attributes α :=
  { d with scalars := d.indexOf name }

end Attributes

/-- A point in space. -/
abbrev Point (α : Type) := α × α × α

/-- A `vtkDataSet` (unstructured grid or polygon data): its cells, of a geometry type `κ`, and
the two attribute sets. -/
structure DataSet (α κ : Type) where
  cells : List κ
  cellData : Attributes α
  pointData : Attributes α

/-- `GetNumberOfCells`. -/
def DataSet.numberOfCells {α κ : Type} (g : DataSet α κ) : Nat := g.cells.length

/-- The output of a filter that yields a single point (`vtkIntegrateAttributes`,
`vtkProbeFilter` on one point): every array has one tuple, kept as the list of its components. -/
structure PointSample (α : Type) where
  cellData : List (String × List α)
  pointData : List (String × List α)

/-- `GetArray(name)` on single-tuple attribute data. -/
def sampleArray {α : Type} (d : List (String × List α)) (name : String) : Option (List α) :=
  (d.find? (fun p => p.1 == name)).map (fun p => p.2)

/-! ## The rendering objects -/

/-- Vector mode of a lookup table. -/
inductive VectorMode where
  | magnitude
  | component
  deriving DecidableEq, Repr

/-- A `vtkLookupTable`. -/
structure LookupTable (α : Type) where
  hueRange : α × α
  vectorMode : VectorMode
  vectorComponent : Int
  built : Bool

/-- A `vtkPolyDataMapper`. -/
structure Mapper (α κ : Type) where
  usePointFieldData : Bool
  arrayName : String
  lookupTable : Option (LookupTable α)
  input : Option (DataSet α κ)
  scalarRange : α × α

/-- The VTK library calls whose results the engine only passes on. -/
structure Library (α κ : Type) where
  /-- The function `std::sqrt`. -/
  sqrt : α → α
  /-- The value `std::numeric_limits<double>::quiet_NaN()`. -/
  quietNaN : α
  /-- What an uninitialised `double` holds. -/
  junk : α
  /-- Output of `vtkXMLUnstructuredGridReader` on a string. -/
  readUnstructuredGrid : String → DataSet α κ
  /-- Output of `vtkXMLPolyDataReader` on a string. -/
  readPolyData : String → DataSet α κ
  /-- Point `cellId` of the output of `vtkCellCenters`. -/
  cellCenter : DataSet α κ → Nat → Point α
  /-- The function `vtkImplicitPolyDataDistance::EvaluateFunction`. -/
  signedDistance : DataSet α κ → Point α → α
  /-- Output of `vtkIntegrateAttributes`. -/
  integrateAttributes : DataSet α κ → PointSample α
  /-- Output of `vtkProbeFilter` for one point. -/
  probeFilter : DataSet α κ → Point α → PointSample α
  /-- Output of `vtkGeometryFilter`. -/
  geometryFilter : DataSet α κ → DataSet α κ
  /-- Output of `vtkCutter` for a plane (origin, normal). -/
  cutter : Point α × Point α → DataSet α κ → DataSet α κ
  /-- Output of `vtkCellDataToPointData` with cell data passed on. -/
  cellDataToPointData : DataSet α κ → DataSet α κ
  /-- The function `vtkDataArray::GetRange(comp)`. -/
  getRange : DataArray α → Int → α × α
  /-- The colour bytes `MapScalars` leaves in the mapper, null when nothing is mapped. -/
  mapScalars : Mapper α κ → DataSet α κ → Option (List Nat)

/-- The data members of `VTK` (and `ML`) that the modelled member functions use. -/
structure VTK (α κ : Type) where
  nCells : Int
  fieldVectorVector : List α
  fieldScalarVector : List α
  grid : DataSet α κ
  polydata : DataSet α κ
  dynPlane : Point α × Point α
  streamTubeOutput : DataSet α κ
  polyDataMapper : Mapper α κ

section Engine

variable {α κ : Type} [LinearOrderedField α]

/-! ## `VTK::readUnstructuredGrid` -/

/-- The member function `VTK::readUnstructuredGrid`. -/
def readUnstructuredGrid (X : Library α κ) (s : VTK α κ) (buffer : String) : Int × VTK α κ :=
  let grid := X.readUnstructuredGrid buffer
  let nCells := toInt32 grid.numberOfCells
  let s1 : VTK α κ :=
    { s with
      grid := grid
      nCells := nCells
      fieldVectorVector := vecResize s.fieldVectorVector (toSizeT (toInt32 (3 * nCells)))
      fieldScalarVector := vecResize s.fieldScalarVector (toSizeT nCells) }
  (s1.nCells, s1)

/-! ## `ML::computeSDFAndRegion` -/

/-- The body of the loop over the cells in `ML::computeSDFAndRegion`; the accumulator is the
local array `sdf1` and the local vector `output`. -/
def sdfStep (X : Library α κ) (grid surface : DataSet α κ)
    (flowRegionData sdf2Data : Option (DataArray α)) (nCellsOutput : Int)
    (acc : DataArray α × List α) (cellId : Nat) : Except Err (DataArray α × List α) := do
  let fr ← deref flowRegionData
  let flowRegionValue ← fr.getTuple1 cellId
  let s2 ← deref sdf2Data
  let sdf2RegionValue ← s2.getTuple1 cellId
  let p := X.cellCenter grid cellId
  let signedDistance := X.signedDistance surface p
  let flowRegionValue := if signedDistance < 0 then 0 else flowRegionValue
  let sdf1 ← acc.1.setTuple1 cellId signedDistance
  let output ← vecAtSet acc.2 (toSizeT (cellId + nCellsOutput)) flowRegionValue
  let output ← vecAtSet output (toSizeT cellId) signedDistance
  let output ← vecAtSet output (toSizeT (cellId + toInt32 (nCellsOutput * 2))) sdf2RegionValue
  pure (sdf1, output)

/-- The member function `ML::computeSDFAndRegion`: the returned typed array (or the error) and
the object after the call. -/
def computeSDFAndRegion (X : Library α κ) (s : VTK α κ) (buffer : String) :
    Except Err (List α) × VTK α κ :=
  let surface := X.readPolyData buffer
  let sdf1 : DataArray α :=
    DataArray.setNumberOfTuples X.junk
      (DataArray.setNumberOfComponents (DataArray.mk "sdf1" 1 []) 1) s.nCells.toNat
  let flowRegionData := s.grid.cellData.getArray "flowRegion"
  let sdf2Data := s.grid.cellData.getArray "sdf2"
  let nCellsOutput := toInt32 s.grid.numberOfCells
  let output : List α := List.replicate (toSizeT (toInt32 (nCellsOutput * 3))) 0
  match (List.range nCellsOutput.toNat).foldlM
      (sdfStep X s.grid surface flowRegionData sdf2Data nCellsOutput) (sdf1, output) with
  | .error e => (.error e, s)
  | .ok r =>
    let s1 : VTK α κ :=
      { s with grid := { s.grid with cellData := s.grid.cellData.setScalars r.1 } }
    (typedArrayFrom r.2, s1)

/-! ## `ML::update` -/

/-- One `if (components == 3) { array->SetTuple3(...) }` block of the loop in `ML::update`. -/
def updateBlock (s : VTK α κ) (components : Int) (array : DataArray α) (i : Nat) :
    Except Err (DataArray α) :=
  if components = 3 then do
    let x ← vecRead s.fieldVectorVector (toSizeT i)
    let y ← vecRead s.fieldVectorVector (toSizeT (i + s.nCells))
    let z ← vecRead s.fieldVectorVector (toSizeT (i + toInt32 (2 * s.nCells)))
    array.setTuple3 i x y z
  else pure array

/-- The body of the loop over the cells in `ML::update`: the two `components == 3` blocks, one
after the other. -/
def updateStep (s : VTK α κ) (components : Int) (array : DataArray α) (i : Nat) :
    Except Err (DataArray α) := do
  let array ← updateBlock s components array i
  updateBlock s components array i

/-- The local `array` of `ML::update` as it is handed to `AddArray`. -/
def updateArray (X : Library α κ) (s : VTK α κ) (fieldName : String) (components : Int) :
    Except Err (DataArray α) := do
  let array : DataArray α := DataArray.mk fieldName 1 []
  let array := array.setNumberOfComponents components
  if toSizeT components = 0 then throw Err.divByZero
  let array :=
    DataArray.setNumberOfTuples X.junk array (s.fieldVectorVector.length / toSizeT components)
  (List.range s.nCells.toNat).foldlM (updateStep s components) array

/-- The member function `ML::update`. -/
def update (X : Library α κ) (s : VTK α κ) (fieldName : String) (components : Int) :
    Except Err Unit × VTK α κ :=
  match updateArray X s fieldName components with
  | .error e => (.error e, s)
  | .ok array =>
    let grid1 : DataSet α κ := { s.grid with cellData := (s.grid.cellData.addArray array).1 }
    (.ok (), { s with grid := X.cellDataToPointData grid1 })

/-! ## `VTK::integrate` -/

/-- A `vtkIntegrateAttributes` object: the data set on its input port. -/
structure IntegrateAttributes (α κ : Type) where
  input : Option (DataSet α κ)

/-- `SetInputData`: the last call decides the input. -/
def IntegrateAttributes.setInputData (_f : IntegrateAttributes α κ) (d : DataSet α κ) :
    IntegrateAttributes α κ :=
  { input := some d }

/-- `Update` and `GetOutputDataObject(0)`. -/
def IntegrateAttributes.output (X : Library α κ) (f : IntegrateAttributes α κ) : PointSample α :=
  match f.input with
  | some d => X.integrateAttributes d
  | none => { cellData := [], pointData := [] }

/-- The filter `integrated` of `VTK::integrate` at the moment `Update` is called: the branch on
`target`, then the unconditional `SetInputData(grid)`. -/
def integrateFilter (s : VTK α κ) (target : String) : IntegrateAttributes α κ :=
  let integrated : IntegrateAttributes α κ := { input := none }
  let integrated :=
    if target = "grid" then integrated.setInputData s.grid
    else if target = "component" then integrated.setInputData s.polydata
    else integrated
  integrated.setInputData s.grid

/-- The local `extent` of `VTK::integrate`: value 0 of the array "Volume" or "Area" of the
filter's output; for any other target it is never assigned. -/
def integrateExtent (X : Library α κ) (dataObj : PointSample α) (target : String) :
    Except Err α :=
  let volumeArray := sampleArray dataObj.cellData "Volume"
  let areaArray := sampleArray dataObj.cellData "Area"
  if target = "grid" then do
    let v ← deref volumeArray
    vecRead v 0
  else if target = "component" then do
    let a ← deref areaArray
    vecRead a 0
  else pure X.junk

/-- The member function `VTK::integrate`. -/
def integrate (X : Library α κ) (s : VTK α κ) (field target : String) : Except Err (List α) := do
  let dataObj := (integrateFilter s target).output X
  let array ← deref (sampleArray dataObj.pointData field)
  let nComponents : Nat := array.length
  let nComponents := if nComponents > 1 then nComponents + 1 else nComponents
  let result : List α := List.replicate (nComponents + 1) 0
  let extent ← integrateExtent X dataObj target
  if nComponents = 4 then do
    let output : List α := List.replicate 5 0
    let g0 ← vecRead array 0
    let g1 ← vecRead array 1
    let g2 ← vecRead array 2
    let mag := X.sqrt (g0 ^ 2 + g1 ^ 2 + g2 ^ 2)
    let output := output.set 0 extent
    let output := output.set 1 g0
    let output := output.set 2 g1
    let output := output.set 3 g2
    let output := output.set 4 mag
    typedArraySet result output
  else if nComponents = 1 then do
    let output : List α := List.replicate 2 0
    let t0 ← vecRead array 0
    let output := output.set 0 extent
    let output := output.set 1 t0
    typedArraySet result output
  else pure result

/-! ## `VTK::probe` -/

/-- The member function `VTK::probe`. -/
def probe (X : Library α κ) (s : VTK α κ) (field : String) (pointX pointY pointZ : α) :
    Except Err (List α) := do
  let probeData := X.probeFilter s.grid (pointX, pointY, pointZ)
  let valid := sampleArray probeData.pointData "vtkValidPointMask"
  let output : List α := List.replicate 4 0
  let mask ← deref valid
  let m0 ← vecRead mask 0
  let output ←
    if m0 = 0 then
      pure ((List.range 4).foldl (fun o i => o.set i X.quietNaN) output)
    else do
      let array ← deref (sampleArray probeData.pointData field)
      let a0 ← vecRead array 0
      let a1 ← vecRead array 1
      let a2 ← vecRead array 2
      let UMag := X.sqrt (a0 ^ 2 + a1 ^ 2 + a2 ^ 2)
      let output := output.set 0 a0
      let output := output.set 1 a1
      let output := output.set 2 a2
      pure (output.set 3 UMag)
  typedArrayFrom output

/-! ## `VTK::render` -/

/-- The branch on `component` at the head of `VTK::render`: which polygon representation the
slot `polydata` holds afterwards. -/
def renderSelect (X : Library α κ) (s : VTK α κ) (component : String) : VTK α κ :=
  if component = "surface" then { s with polydata := X.geometryFilter s.grid }
  else if component = "plane" then { s with polydata := X.cutter s.dynPlane s.grid }
  else if component = "streamlines" then { s with polydata := s.streamTubeOutput }
  else s

/-- The member function `VTK::render`: the returned colour buffer (or the error) and the object
after the call. -/
def render (X : Library α κ) (s : VTK α κ) (component field : String) (componentIndex : Int)
    (minValue maxValue : α) : Except Err (List α) × VTK α κ :=
  let colorLookupTable : LookupTable α :=
    { hueRange := (667 / 1000, 0), vectorMode := .magnitude, vectorComponent := 0, built := false }
  let s := renderSelect X s component
  let polydata : DataSet α κ :=
    { s.polydata with pointData := s.polydata.pointData.setActiveScalars field }
  let mapper : Mapper α κ := { s.polyDataMapper with usePointFieldData := true }
  let colorLookupTable : LookupTable α :=
    if componentIndex = -1 then { colorLookupTable with vectorMode := .magnitude }
    else { colorLookupTable with vectorMode := .component, vectorComponent := componentIndex }
  let mapper : Mapper α κ := { mapper with arrayName := field }
  let colorLookupTable : LookupTable α := { colorLookupTable with built := true }
  let mapper : Mapper α κ :=
    { mapper with lookupTable := some colorLookupTable, input := some polydata }
  let s : VTK α κ := { s with polydata := polydata, polyDataMapper := mapper }
  let ranged : Except Err (Mapper α κ) :=
    if minValue = 0 ∧ maxValue = 0 then
      match polydata.pointData.getArray field with
      | none => .error .nullPointer
      | some a => .ok { mapper with scalarRange := X.getRange a componentIndex }
    else .ok { mapper with scalarRange := (minValue, maxValue) }
  match ranged with
  | .error e => (.error e, s)
  | .ok mapper =>
    let s : VTK α κ := { s with polyDataMapper := mapper }
    match X.mapScalars mapper polydata with
    | none => (.error .nullPointer, s)
    | some colors =>
      let data : List α := colors.map (fun b => (b : α))
      let data := data.map (fun value => value / 255)
      (typedArrayFrom data, s)

/-! ## `ML::fieldVector`, `ML::fieldScalar` -/

/-- The two scratch buffers of the object. -/
inductive ScratchBuffer where
  | fieldVectorVector
  | fieldScalarVector
  deriving DecidableEq, Repr

/-- A `typed_memory_view`: a number of elements and the buffer whose `data()` it starts at. -/
structure MemoryView where
  size : Nat
  buffer : ScratchBuffer
  deriving DecidableEq, Repr

/-- The member function `ML::fieldVector`. -/
def fieldVector (s : VTK α κ) : MemoryView :=
  { size := toSizeT (toInt32 (3 * s.nCells)), buffer := .fieldVectorVector }

/-- The member function `ML::fieldScalar`. -/
def fieldScalar (s : VTK α κ) : MemoryView :=
  { size := toSizeT s.nCells, buffer := .fieldVectorVector }

/-- The buffer of the object a view starts at. -/
def MemoryView.contents (v : MemoryView) (s : VTK α κ) : List α :=
  match v.buffer with
  | .fieldVectorVector => s.fieldVectorVector
  | .fieldScalarVector => s.fieldScalarVector

/-- Element `i` read through a view; there is none at or beyond the view's size. -/
def MemoryView.read (v : MemoryView) (s : VTK α κ) (i : Nat) : Option α :=
  if i < v.size then (v.contents s)[i]? else none

/-- Element `i` written through a view: the write lands in the buffer the view starts at, and a
write at or beyond the view's size is dropped. -/
def MemoryView.write (v : MemoryView) (s : VTK α κ) (i : Nat) (x : α) : VTK α κ :=
  if i < v.size then
    match v.buffer with
    | .fieldVectorVector => { s with fieldVectorVector := s.fieldVectorVector.set i x }
    | .fieldScalarVector => { s with fieldScalarVector := s.fieldScalarVector.set i x }
  else s

end Engine

/-! ## A small library instance for concrete evaluations -/

/-- A cell of the concrete instance: its dimension, its measure (length, area or volume) and its
centre. -/
structure DemoCell (α : Type) where
  dim : Nat
  measure : α
  center : Point α

section Demo

variable {α : Type} [LinearOrderedField α]

/-- Integration of a data set whose fields are uniform: the measure of the cells of the highest
dimension, named after that dimension, and each point field's first tuple times the measure. -/
def demoIntegrate (d : DataSet α (DemoCell α)) : PointSample α :=
  let top := (d.cells.map (fun c => c.dim)).foldl max 0
  let total := ((d.cells.filter (fun c => c.dim = top)).map (fun c => c.measure)).sum
  let name := if top = 3 then "Volume" else if top = 2 then "Area" else "Length"
  { cellData := [(name, [total])]
    pointData := d.pointData.arrays.map
      (fun a => (a.name, (a.values.take a.nComp).map (fun v => v * total))) }

/-- Probe of a data set whose fields are uniform and whose domain is `0 ≤ x ≤ 1`. -/
def demoProbe (d : DataSet α (DemoCell α)) (p : Point α) : PointSample α :=
  let mask : α := if 0 ≤ p.1 ∧ p.1 ≤ 1 then 1 else 0
  { cellData := []
    pointData := ("vtkValidPointMask", [mask]) ::
      d.pointData.arrays.map (fun a => (a.name, a.values.take a.nComp)) }

/-- The concrete library instance: grids are decoded to `decoded`, the signed distance of a
point is its first coordinate, and the colour bytes are fixed. -/
def demoLibrary (sq : α → α) (decoded : DataSet α (DemoCell α)) : Library α (DemoCell α) :=
  { sqrt := sq
    quietNaN := -1
    junk := 7
    readUnstructuredGrid := fun _ => decoded
    readPolyData := fun _ => decoded
    cellCenter := fun g i => match g.cells[i]? with
      | some c => c.center
      | none => (0, 0, 0)
    signedDistance := fun _ p => p.1
    integrateAttributes := demoIntegrate
    probeFilter := demoProbe
    geometryFilter := fun g => g
    cutter := fun _ g => g
    cellDataToPointData := fun g => g
    getRange := fun a _ => (a.values.foldl min (a.values.headD 0), a.values.foldl max (a.values.headD 0))
    mapScalars := fun m g => (g.pointData.getArray m.arrayName).map (fun _ => [0, 51, 255]) }

/-- No attribute arrays. -/
def noData : Attributes α := { arrays := [], scalars := none }

/-- The data set without cells and arrays. -/
def emptyDataSet : DataSet α (DemoCell α) := { cells := [], cellData := noData, pointData := noData }

/-- A mapper before any call. -/
def demoMapper : Mapper α (DemoCell α) :=
  { usePointFieldData := false, arrayName := "", lookupTable := none, input := none,
    scalarRange := (0, 1) }

/-- An object holding `grid` and `polydata`, with `nCells` and the scratch buffers as a load
of `grid` leaves them. -/
def demoObject (grid polydata : DataSet α (DemoCell α)) : VTK α (DemoCell α) :=
  { nCells := grid.numberOfCells
    fieldVectorVector := List.replicate (3 * grid.numberOfCells) 0
    fieldScalarVector := List.replicate grid.numberOfCells 0
    grid := grid
    polydata := polydata
    dynPlane := ((0, 0, 0), (0, 0, 1))
    streamTubeOutput := emptyDataSet
    polyDataMapper := demoMapper }

/-- A grid of two volumetric cells (volumes 1/2 and 3/2, centres at x = -1 and x = 1) with the
cell fields "flowRegion" and "sdf2" and the uniform point fields "p" = 3 and "U" = (3, 4, 0). -/
def demoGrid : DataSet α (DemoCell α) :=
  { cells := [{ dim := 3, measure := 1 / 2, center := (-1, 0, 0) },
              { dim := 3, measure := 3 / 2, center := (1, 0, 0) }]
    cellData :=
      { arrays := [{ name := "flowRegion", nComp := 1, values := [5, 6] },
                   { name := "sdf2", nComp := 1, values := [8, 9] }]
        scalars := none }
    pointData :=
      { arrays := [{ name := "p", nComp := 1, values := [3, 3, 3] },
                   { name := "U", nComp := 3, values := [3, 4, 0, 3, 4, 0, 3, 4, 0] }]
        scalars := none } }

/-- A surface of one polygon of area 5 carrying the same point fields. -/
def demoSurface : DataSet α (DemoCell α) :=
  { cells := [{ dim := 2, measure := 5, center := (0, 0, 0) }]
    cellData := noData
    pointData :=
      { arrays := [{ name := "p", nComp := 1, values := [3, 3, 3] },
                   { name := "U", nComp := 3, values := [3, 4, 0, 3, 4, 0, 3, 4, 0] }]
        scalars := none } }

/-- A grid of one volumetric cell of volume 2; its vector scratch content after a load has
three entries. -/
def demoCellGrid : DataSet α (DemoCell α) :=
  { cells := [{ dim := 3, measure := 2, center := (1, 0, 0) }]
    cellData := noData
    pointData := noData }

/-- The two-cell grid with "flowRegion" as its active cell scalars. -/
def demoGridActive : DataSet α (DemoCell α) :=
  { (demoGrid : DataSet α (DemoCell α)) with
    cellData := { (demoGrid : DataSet α (DemoCell α)).cellData with scalars := some 0 } }

end Demo

/-! ## The loop invariant of `computeSDFAndRegion` -/

/-- The accumulator of the loop of `computeSDFAndRegion` (the array `sdf1` and the vector
`output`) after the first `k` cells of `N`; `d i` is the signed distance at the centre of
cell `i`. -/
def SdfInv {α : Type} [LinearOrderedField α] (d : Nat → α) (fr s2 : DataArray α) (N k : Nat)
    (acc : DataArray α × List α) : Prop :=
  acc.1.name = "sdf1" ∧ acc.1.nComp = 1 ∧ acc.1.values.length = N ∧ acc.2.length = 3 * N ∧
  ∀ i, i < k → ∃ v w, fr.values[i]? = some v ∧ s2.values[i]? = some w ∧
    acc.1.values[i]? = some (d i) ∧
    acc.2[i]? = some (d i) ∧
    acc.2[N + i]? = some (if d i < 0 then 0 else v) ∧
    acc.2[2 * N + i]? = some w

/-! ## The loop invariant of `update` -/

/-- The local `array` of `update(fieldName, 3)` after the first `k` cells of `N`: three
components, `N` tuples, and tuple `i` read from the places `i`, `i + N`, `i + 2 * N` of `buf`. -/
def UpdInv {α : Type} (buf : List α) (fieldName : String) (N k : Nat) (a : DataArray α) : Prop :=
  a.name = fieldName ∧ a.nComp = 3 ∧ a.values.length = 3 * N ∧
  ∀ i, i < k → ∃ x y z, buf[i]? = some x ∧ buf[i + N]? = some y ∧ buf[i + 2 * N]? = some z ∧
    a.values[3 * i]? = some x ∧ a.values[3 * i + 1]? = some y ∧ a.values[3 * i + 2]? = some z

/-! ## Machine integers within range -/

theorem toInt32_eq_self (x : Int) (h0 : 0 ≤ x) (h1 : x < 2147483648) : toInt32 x = x := by
  unfold toInt32
  split <;> omega

theorem toSizeT_natCast (n : Nat) (h : n < 4294967296) : toSizeT (n : Int) = n := by
  unfold toSizeT
  omega

theorem vecResize_length {α : Type} [Zero α] (v : List α) (n : Nat) :
    (vecResize v n).length = n := by
  simp only [vecResize, List.length_append, List.length_take, List.length_replicate]
  omega

/-! ## The attribute containers -/

section Containers

variable {α : Type}

theorem find?_set_of_false {β : Type} (p : β → Bool) (a : β) (l : List β) (i : Nat)
    (h1 : p a = false) (h2 : ∀ b, l[i]? = some b → p b = false) :
    (l.set i a).find? p = l.find? p := by
  induction l generalizing i with
  | nil => rfl
  | cons x xs ih =>
    cases i with
    | zero =>
      have hx : p x = false := h2 x (by simp)
      simp [List.find?, h1, hx]
    | succ j =>
      simp only [List.set_cons_succ, List.find?_cons]
      rw [ih j (fun b hb => h2 b (by simpa using hb))]

theorem find?_eraseIdx_of_false {β : Type} (p : β → Bool) (l : List β) (i : Nat)
    (h : ∀ b, l[i]? = some b → p b = false) :
    (l.eraseIdx i).find? p = l.find? p := by
  induction l generalizing i with
  | nil => rfl
  | cons x xs ih =>
    cases i with
    | zero =>
      have hx : p x = false := h x (by simp)
      simp [List.find?, hx]
    | succ j =>
      simp only [List.eraseIdx_cons_succ, List.find?_cons]
      rw [ih j (fun b hb => h b (by simpa using hb))]

theorem getArray_addArray_ne (d : Attributes α) (a : DataArray α) (nm : String)
    (h : a.name ≠ nm) : (d.addArray a).1.getArray nm = d.getArray nm := by
  unfold Attributes.addArray Attributes.indexOf
  by_cases hi : d.arrays.findIdx (fun b => b.name == a.name) < d.arrays.length
  · simp only [hi, if_true, Attributes.getArray]
    apply find?_set_of_false
    · simpa using h
    · intro b hb
      rw [List.getElem?_eq_getElem hi] at hb
      have hp := List.findIdx_getElem (w := hi)
      simp only [Option.some.injEq] at hb
      subst hb
      have : (d.arrays[d.arrays.findIdx (fun b => b.name == a.name)]).name = a.name := by
        simpa using hp
      simp only [this]
      simpa using h
  · simp only [hi, if_false, Attributes.getArray, List.find?_append]
    have : (a.name == nm) = false := by simpa using h
    simp [List.find?, this]

theorem getArray_removeArray_ne (d : Attributes α) (i : Nat) (nm : String)
    (h : ∀ b, d.arrays[i]? = some b → b.name ≠ nm) :
    (d.removeArray i).getArray nm = d.getArray nm := by
  simp only [Attributes.removeArray, Attributes.getArray]
  apply find?_eraseIdx_of_false
  intro b hb
  simpa using h b hb

theorem addArray_index (d : Attributes α) (a : DataArray α) :
    (d.addArray a).1.arrays[(d.addArray a).2]? = some a := by
  unfold Attributes.addArray Attributes.indexOf
  by_cases hi : d.arrays.findIdx (fun b => b.name == a.name) < d.arrays.length
  · simp only [hi, if_true]
    exact List.getElem?_set_self hi
  · simp only [hi, if_false]
    simp

/-- The array `SetScalars` installs is the active scalars afterwards, and an array of another
name that was not the active scalars is still there. -/
theorem setScalars_spec (d : Attributes α) (a : DataArray α) :
    (∃ j, (d.setScalars a).scalars = some j ∧ (d.setScalars a).arrays[j]? = some a) ∧
    ∀ nm, a.name ≠ nm →
      (∀ j b, d.scalars = some j → d.arrays[j]? = some b → b.name ≠ nm) →
      (d.setScalars a).getArray nm = d.getArray nm := by
  constructor
  · exact ⟨_, rfl, addArray_index _ a⟩
  · intro nm hnm hact
    show (Attributes.addArray _ a).1.getArray nm = _
    rw [getArray_addArray_ne _ a nm hnm]
    cases hsc : d.scalars with
    | none => rfl
    | some cur =>
      simp only
      split
      · exact getArray_removeArray_ne d cur nm (fun b hb => hact cur b hsc hb)
      · rfl

end Containers

/-! ## The loop of `update` -/

section UpdateLemmas

variable {α κ : Type}

theorem set3_idem {β : Type} (l : List β) (a : Nat) (x y z : β) :
    ((((((l.set a x).set (a + 1) y).set (a + 2) z).set a x).set (a + 1) y).set (a + 2) z) =
      ((l.set a x).set (a + 1) y).set (a + 2) z := by
  apply List.ext_getElem?
  intro j
  simp only [List.getElem?_set, List.length_set]
  split_ifs <;> rfl

theorem toSizeT_of_nonneg (x : Int) (h0 : 0 ≤ x) (h1 : x < 4294967296) :
    toSizeT x = x.toNat := by
  unfold toSizeT
  omega

/-- The second `components == 3` block of the loop in `update` repeats the first. -/
theorem updateStep_eq_block (s : VTK α κ) (components : Int) (array : DataArray α) (i : Nat) :
    updateStep s components array i = updateBlock s components array i := by
  unfold updateStep updateBlock
  by_cases hc : components = 3
  · simp only [hc, if_true]
    cases hx : vecRead s.fieldVectorVector (toSizeT i) with
    | error e => rfl
    | ok x =>
      cases hy : vecRead s.fieldVectorVector (toSizeT (i + s.nCells)) with
      | error e => rfl
      | ok y =>
        cases hz : vecRead s.fieldVectorVector (toSizeT (i + toInt32 (2 * s.nCells))) with
        | error e => rfl
        | ok z =>
          simp only [bind, Except.bind, DataArray.setTuple3]
          by_cases hb : i * array.nComp + 2 < array.values.length
          · simp only [hb, if_true, List.length_set, hx, hy, hz, set3_idem]
          · simp only [hb, if_false]
  · simp only [hc, if_false]
    rfl

theorem updateBlock_inv (s : VTK α κ) (fieldName : String) (N k : Nat) (a : DataArray α)
    (hn : s.nCells = N) (hlen : s.fieldVectorVector.length = 3 * N)
    (hfit : 3 * N < 2147483648) (hk : k < N)
    (h : UpdInv s.fieldVectorVector fieldName N k a) :
    ∃ a1, updateBlock s 3 a k = .ok a1 ∧ UpdInv s.fieldVectorVector fieldName N (k + 1) a1 := by
  obtain ⟨hnm, hc, hl, hall⟩ := h
  have e2 : toInt32 (2 * (N : Int)) = ((2 * N : Nat) : Int) := by
    rw [toInt32_eq_self _ (by omega) (by omega)]; push_cast; ring
  have i1 : toSizeT ((k : Int) + (N : Int)) = k + N := by
    have h0 : (k : Int) + (N : Int) = ((k + N : Nat) : Int) := by push_cast; ring
    rw [h0]; exact toSizeT_natCast _ (by omega)
  have i2 : toSizeT (k : Int) = k := toSizeT_natCast k (by omega)
  have i3 : toSizeT ((k : Int) + ((2 * N : Nat) : Int)) = k + 2 * N := by
    have h0 : (k : Int) + ((2 * N : Nat) : Int) = ((k + 2 * N : Nat) : Int) := by
      push_cast; ring
    rw [h0]; exact toSizeT_natCast _ (by omega)
  have hkx : k < s.fieldVectorVector.length := by omega
  have hky : k + N < s.fieldVectorVector.length := by omega
  have hkz : k + 2 * N < s.fieldVectorVector.length := by omega
  obtain ⟨x, hx⟩ : ∃ x, s.fieldVectorVector[k]? = some x := ⟨_, List.getElem?_eq_getElem hkx⟩
  obtain ⟨y, hy⟩ : ∃ y, s.fieldVectorVector[k + N]? = some y :=
    ⟨_, List.getElem?_eq_getElem hky⟩
  obtain ⟨z, hz⟩ : ∃ z, s.fieldVectorVector[k + 2 * N]? = some z :=
    ⟨_, List.getElem?_eq_getElem hkz⟩
  have hstep : updateBlock s 3 a k =
      .ok { a with values := ((a.values.set (k * 3) x).set (k * 3 + 1) y).set (k * 3 + 2) z } := by
    simp only [updateBlock, if_true, hn, e2, i1, i2, i3, vecRead, hx, hy, hz,
      DataArray.setTuple3, hc, hl, bind, Except.bind, show k * 3 + 2 < 3 * N by omega]
  refine ⟨_, hstep, hnm, hc, ?_, ?_⟩
  · simp only [List.length_set]; exact hl
  · intro i hi
    rcases Nat.lt_succ_iff_lt_or_eq.mp hi with hlt | heq
    · obtain ⟨x1, y1, z1, b1, b2, b3, b4, b5, b6⟩ := hall i hlt
      refine ⟨x1, y1, z1, b1, b2, b3, ?_, ?_, ?_⟩
      · rw [List.getElem?_set_ne (by omega), List.getElem?_set_ne (by omega),
          List.getElem?_set_ne (by omega)]; exact b4
      · rw [List.getElem?_set_ne (by omega), List.getElem?_set_ne (by omega),
          List.getElem?_set_ne (by omega)]; exact b5
      · rw [List.getElem?_set_ne (by omega), List.getElem?_set_ne (by omega),
          List.getElem?_set_ne (by omega)]; exact b6
    · subst heq
      refine ⟨x, y, z, hx, hy, hz, ?_, ?_, ?_⟩
      · rw [List.getElem?_set_ne (by omega), List.getElem?_set_ne (by omega),
          show 3 * i = i * 3 by omega]
        exact List.getElem?_set_self (by omega)
      · rw [List.getElem?_set_ne (by omega), show 3 * i + 1 = i * 3 + 1 by omega]
        exact List.getElem?_set_self (by simp only [List.length_set]; omega)
      · rw [show 3 * i + 2 = i * 3 + 2 by omega]
        exact List.getElem?_set_self (by simp only [List.length_set]; omega)

theorem updateLoop_inv (s : VTK α κ) (fieldName : String) (N : Nat) (a : DataArray α)
    (hn : s.nCells = N) (hlen : s.fieldVectorVector.length = 3 * N)
    (hfit : 3 * N < 2147483648)
    (h : UpdInv s.fieldVectorVector fieldName N 0 a) (k : Nat) (hk : k ≤ N) :
    ∃ a1, (List.range k).foldlM (updateStep s 3) a = .ok a1 ∧
      UpdInv s.fieldVectorVector fieldName N k a1 := by
  induction k with
  | zero => exact ⟨a, rfl, h⟩
  | succ k ih =>
    obtain ⟨b, hb, hinv⟩ := ih (by omega)
    obtain ⟨c, hc, hinvc⟩ := updateBlock_inv s fieldName N k b hn hlen hfit (by omega) hinv
    refine ⟨c, ?_, hinvc⟩
    rw [List.range_succ, List.foldlM_append, hb]
    simp only [bind, Except.bind, List.foldlM, updateStep_eq_block, hc]
    rfl

/-- The array `update(fieldName, 3)` hands to `AddArray`. -/
theorem updateArray_three (X : Library α κ) (s : VTK α κ) (fieldName : String) (N : Nat)
    (hn : s.nCells = N) (hlen : s.fieldVectorVector.length = 3 * N)
    (hfit : 3 * N < 2147483648) :
    ∃ a, updateArray X s fieldName 3 = .ok a ∧ UpdInv s.fieldVectorVector fieldName N N a := by
  have h3 : toSizeT 3 = 3 := by decide
  have h0 : UpdInv s.fieldVectorVector fieldName N 0
      (DataArray.setNumberOfTuples X.junk
        (DataArray.setNumberOfComponents (DataArray.mk fieldName 1 []) 3) (3 * N / 3)) := by
    refine ⟨rfl, rfl, ?_, ?_⟩
    · simp [DataArray.setNumberOfTuples, DataArray.setNumberOfComponents]
      omega
    · intro i hi
      omega
  obtain ⟨a, ha, hinv⟩ := updateLoop_inv s fieldName N _ hn hlen hfit h0 N le_rfl
  refine ⟨a, ?_, hinv⟩
  simp only [updateArray, h3, hlen, hn, Int.toNat_ofNat]
  exact ha

end UpdateLemmas

section Lemmas

variable {α κ : Type} [LinearOrderedField α]

theorem typedArrayFrom_eq {β : Type} [Zero β] (v : List β) : typedArrayFrom v = .ok v := by
  simp [typedArrayFrom, typedArraySet]

/-! ### The loop of `computeSDFAndRegion` -/

theorem sdfStep_inv (X : Library α κ) (grid surface : DataSet α κ) (fr s2 : DataArray α)
    (N k : Nat) (acc : DataArray α × List α)
    (hfit : 3 * N < 2147483648) (hk : k < N)
    (hfr1 : fr.nComp = 1) (hfrl : fr.values.length = N)
    (hs1 : s2.nComp = 1) (hsl : s2.values.length = N)
    (h : SdfInv (fun i => X.signedDistance surface (X.cellCenter grid i)) fr s2 N k acc) :
    ∃ acc1, sdfStep X grid surface (some fr) (some s2) (N : Int) acc k = .ok acc1 ∧
      SdfInv (fun i => X.signedDistance surface (X.cellCenter grid i)) fr s2 N (k + 1) acc1 := by
  obtain ⟨hnm, hc, hl1, hl2, hall⟩ := h
  have e2 : toInt32 ((N : Int) * 2) = ((2 * N : Nat) : Int) := by
    rw [toInt32_eq_self _ (by omega) (by omega)]; push_cast; ring
  have i1 : toSizeT ((k : Int) + (N : Int)) = N + k := by
    have h0 : (k : Int) + (N : Int) = ((N + k : Nat) : Int) := by push_cast; ring
    rw [h0]; exact toSizeT_natCast _ (by omega)
  have i2 : toSizeT (k : Int) = k := toSizeT_natCast k (by omega)
  have i3 : toSizeT ((k : Int) + ((2 * N : Nat) : Int)) = 2 * N + k := by
    have h0 : (k : Int) + ((2 * N : Nat) : Int) = ((2 * N + k : Nat) : Int) := by
      push_cast; ring
    rw [h0]; exact toSizeT_natCast _ (by omega)
  have hkf : k < fr.values.length := by omega
  have hks : k < s2.values.length := by omega
  obtain ⟨v, hv⟩ : ∃ v, fr.values[k]? = some v := ⟨_, List.getElem?_eq_getElem hkf⟩
  obtain ⟨w, hw⟩ : ∃ w, s2.values[k]? = some w := ⟨_, List.getElem?_eq_getElem hks⟩
  have hstep : sdfStep X grid surface (some fr) (some s2) (N : Int) acc k =
      .ok ({ acc.1 with
              values := acc.1.values.set k (X.signedDistance surface (X.cellCenter grid k)) },
        ((acc.2.set (N + k)
            (if X.signedDistance surface (X.cellCenter grid k) < 0 then 0 else v)).set k
            (X.signedDistance surface (X.cellCenter grid k))).set (2 * N + k) w) := by
    simp only [sdfStep, deref, DataArray.getTuple1, DataArray.setTuple1, vecRead, vecAtSet,
      hfr1, hs1, hc, Nat.mul_one, hv, hw, e2, i1, i2, i3, hl1, hl2, hk, List.length_set,
      bind, Except.bind, pure, Except.pure, if_true,
      show N + k < 3 * N by omega, show k < 3 * N by omega, show 2 * N + k < 3 * N by omega]
  refine ⟨_, hstep, hnm, hc, ?_, ?_, ?_⟩
  · simp only [List.length_set]; exact hl1
  · simp only [List.length_set]; exact hl2
  · intro i hi
    rcases Nat.lt_succ_iff_lt_or_eq.mp hi with hlt | heq
    · obtain ⟨v1, w1, a1, a2, a3, a4, a5, a6⟩ := hall i hlt
      refine ⟨v1, w1, a1, a2, ?_, ?_, ?_, ?_⟩
      · rw [List.getElem?_set_ne (by omega)]; exact a3
      · rw [List.getElem?_set_ne (by omega), List.getElem?_set_ne (by omega),
          List.getElem?_set_ne (by omega)]; exact a4
      · rw [List.getElem?_set_ne (by omega), List.getElem?_set_ne (by omega),
          List.getElem?_set_ne (by omega)]; exact a5
      · rw [List.getElem?_set_ne (by omega), List.getElem?_set_ne (by omega),
          List.getElem?_set_ne (by omega)]; exact a6
    · subst heq
      refine ⟨v, w, hv, hw, ?_, ?_, ?_, ?_⟩
      · exact List.getElem?_set_self (by omega)
      · rw [List.getElem?_set_ne (by omega)]
        exact List.getElem?_set_self (by simp only [List.length_set]; omega)
      · rw [List.getElem?_set_ne (by omega), List.getElem?_set_ne (by omega)]
        exact List.getElem?_set_self (by omega)
      · exact List.getElem?_set_self (by simp only [List.length_set]; omega)

theorem sdfLoop_inv (X : Library α κ) (grid surface : DataSet α κ) (fr s2 : DataArray α)
    (N : Nat) (acc : DataArray α × List α)
    (hfit : 3 * N < 2147483648)
    (hfr1 : fr.nComp = 1) (hfrl : fr.values.length = N)
    (hs1 : s2.nComp = 1) (hsl : s2.values.length = N)
    (h : SdfInv (fun i => X.signedDistance surface (X.cellCenter grid i)) fr s2 N 0 acc)
    (k : Nat) (hk : k ≤ N) :
    ∃ acc1, (List.range k).foldlM (sdfStep X grid surface (some fr) (some s2) (N : Int)) acc =
        .ok acc1 ∧
      SdfInv (fun i => X.signedDistance surface (X.cellCenter grid i)) fr s2 N k acc1 := by
  induction k with
  | zero => exact ⟨acc, rfl, h⟩
  | succ k ih =>
    obtain ⟨a, ha, hinv⟩ := ih (by omega)
    obtain ⟨b, hb, hinvb⟩ :=
      sdfStep_inv X grid surface fr s2 N k a hfit (by omega) hfr1 hfrl hs1 hsl hinv
    refine ⟨b, ?_, hinvb⟩
    rw [List.range_succ, List.foldlM_append, ha]
    simp only [bind, Except.bind, List.foldlM, hb]
    rfl

/-- The loop of `computeSDFAndRegion` on a grid of `N` cells with both fields present, from the
state the function sets up. -/
theorem sdfLoop_run (X : Library α κ) (s : VTK α κ) (buffer : String) (N : Nat)
    (fr s2 : DataArray α) (hfit : 3 * N < 2147483648)
    (hfr1 : fr.nComp = 1) (hfrl : fr.values.length = N)
    (hs1 : s2.nComp = 1) (hsl : s2.values.length = N) :
    ∃ acc, (List.range N).foldlM
        (sdfStep X s.grid (X.readPolyData buffer) (some fr) (some s2) (N : Int))
        (DataArray.setNumberOfTuples X.junk
          (DataArray.setNumberOfComponents (DataArray.mk "sdf1" 1 []) 1) N,
         List.replicate (3 * N) (0 : α)) = .ok acc ∧
      SdfInv (fun i => X.signedDistance (X.readPolyData buffer) (X.cellCenter s.grid i))
        fr s2 N N acc := by
  have h0 : SdfInv (fun i => X.signedDistance (X.readPolyData buffer) (X.cellCenter s.grid i))
      fr s2 N 0
      (DataArray.setNumberOfTuples X.junk
        (DataArray.setNumberOfComponents (DataArray.mk "sdf1" 1 []) 1) N,
       List.replicate (3 * N) (0 : α)) := by
    refine ⟨rfl, rfl, ?_, ?_, ?_⟩
    · simp [DataArray.setNumberOfTuples, DataArray.setNumberOfComponents]
    · simp
    · intro i hi
      omega
  exact sdfLoop_inv X s.grid (X.readPolyData buffer) fr s2 N _ hfit hfr1 hfrl hs1 hsl h0 N
    le_rfl

/-- The function `computeSDFAndRegion` once its loop is known to deliver `acc`. -/
theorem computeSDFAndRegion_eq (X : Library α κ) (s : VTK α κ) (buffer : String) (N : Nat)
    (fr s2 : DataArray α) (acc : DataArray α × List α)
    (hN : s.grid.numberOfCells = N) (hfit : 3 * N < 2147483648) (hn : s.nCells = N)
    (hfr : s.grid.cellData.getArray "flowRegion" = some fr)
    (hs : s.grid.cellData.getArray "sdf2" = some s2)
    (hacc : (List.range N).foldlM
        (sdfStep X s.grid (X.readPolyData buffer) (some fr) (some s2) (N : Int))
        (DataArray.setNumberOfTuples X.junk
          (DataArray.setNumberOfComponents (DataArray.mk "sdf1" 1 []) 1) N,
         List.replicate (3 * N) (0 : α)) = .ok acc) :
    computeSDFAndRegion X s buffer =
      (.ok acc.2,
       { s with grid := { s.grid with cellData := s.grid.cellData.setScalars acc.1 } }) := by
  have e1 : toInt32 (N : Int) = N := toInt32_eq_self _ (by omega) (by omega)
  have e3 : toSizeT (toInt32 ((N : Int) * 3)) = 3 * N := by
    rw [toInt32_eq_self _ (by omega) (by omega)]
    have h0 : (N : Int) * 3 = ((3 * N : Nat) : Int) := by push_cast; ring
    rw [h0]; exact toSizeT_natCast _ (by omega)
  simp only [computeSDFAndRegion, hN, hn, hfr, hs, e1, e3, Int.toNat_ofNat, hacc,
    typedArrayFrom_eq]

theorem sdfInv_array (d : Nat → α) (fr s2 : DataArray α) (N : Nat)
    (acc : DataArray α × List α) (h : SdfInv d fr s2 N N acc) :
    acc.1 = DataArray.mk "sdf1" 1 ((List.range N).map d) := by
  obtain ⟨hnm, hc, hl, -, hall⟩ := h
  have hv : acc.1.values = (List.range N).map d := by
    apply List.ext_getElem?
    intro i
    by_cases hi : i < N
    · obtain ⟨v, w, -, -, a3, -⟩ := hall i hi
      rw [a3, List.getElem?_map, List.getElem?_range hi]
      rfl
    · rw [List.getElem?_eq_none (by omega), List.getElem?_eq_none (by simp; omega)]
  cases hacc : acc.1 with
  | mk nm c vs =>
    rw [hacc] at hnm hc hv
    simp only at hnm hc hv
    rw [hnm, hc, hv]

/-- The object after `computeSDFAndRegion` on a grid of `N` cells with both fields present. -/
theorem computeSDFAndRegion_state (X : Library α κ) (s : VTK α κ) (buffer : String) (N : Nat)
    (fr s2 : DataArray α)
    (hN : s.grid.numberOfCells = N) (hfit : 3 * N < 2147483648) (hn : s.nCells = N)
    (hfr : s.grid.cellData.getArray "flowRegion" = some fr)
    (hfr1 : fr.nComp = 1) (hfrl : fr.values.length = N)
    (hs : s.grid.cellData.getArray "sdf2" = some s2)
    (hs1 : s2.nComp = 1) (hsl : s2.values.length = N) :
    (computeSDFAndRegion X s buffer).2 =
      { s with grid := { s.grid with cellData := (s.grid.cellData.setScalars
          (DataArray.mk "sdf1" 1 ((List.range N).map
            (fun i => X.signedDistance (X.readPolyData buffer) (X.cellCenter s.grid i))))) } } := by
  obtain ⟨acc, hacc, hinv⟩ := sdfLoop_run X s buffer N fr s2 hfit hfr1 hfrl hs1 hsl
  rw [computeSDFAndRegion_eq X s buffer N fr s2 acc hN hfit hn hfr hs hacc,
    sdfInv_array _ fr s2 N acc hinv]

theorem sdfStep_missing (X : Library α κ) (grid surface : DataSet α κ)
    (fr s2 : Option (DataArray α)) (n : Int) (acc : DataArray α × List α) (k : Nat)
    (h : fr = none ∨ s2 = none) :
    ∃ e, sdfStep X grid surface fr s2 n acc k = .error e := by
  cases fr with
  | none => exact ⟨.nullPointer, rfl⟩
  | some f =>
    have h2 : s2 = none := by simpa using h
    subst h2
    cases hg : f.getTuple1 k with
    | error e => exact ⟨e, by simp [sdfStep, deref, hg, bind, Except.bind]⟩
    | ok v => exact ⟨.nullPointer, by simp [sdfStep, deref, hg, bind, Except.bind]⟩

end Lemmas

section Theorems

variable {α κ : Type} [LinearOrderedField α]

/-! ## Loading a grid -/

/-- C5: a load that decodes a grid of `N` cells (a count whose triple fits an `int`) returns
`N`, stores `N` in `nCells`, stores the decoded grid, and leaves the vector scratch buffer with
length `3 * N` and the scalar scratch buffer with length `N`, whatever the object held before. -/
theorem readUnstructuredGrid_sizes (X : Library α κ) (s : VTK α κ) (buffer : String) (N : Nat)
    (hN : (X.readUnstructuredGrid buffer).numberOfCells = N) (hfit : 3 * N < 2147483648) :
    (readUnstructuredGrid X s buffer).1 = N ∧
    (readUnstructuredGrid X s buffer).2.nCells = N ∧
    (readUnstructuredGrid X s buffer).2.grid = X.readUnstructuredGrid buffer ∧
    (readUnstructuredGrid X s buffer).2.fieldVectorVector.length = 3 * N ∧
    (readUnstructuredGrid X s buffer).2.fieldScalarVector.length = N := by
  have h1 : toInt32 (N : Int) = N := toInt32_eq_self _ (by omega) (by omega)
  have h3 : toInt32 (3 * (N : Int)) = ((3 * N : Nat) : Int) := by
    rw [toInt32_eq_self _ (by omega) (by omega)]
    push_cast
    rfl
  simp only [readUnstructuredGrid, hN, h1, h3, vecResize_length]
  refine ⟨trivial, trivial, trivial, ?_, ?_⟩
  · exact toSizeT_natCast _ (by omega)
  · exact toSizeT_natCast _ (by omega)

/-- Witness of C5: loading the two-cell grid into an object that held nothing. -/
theorem readUnstructuredGrid_sizes_witness :
    ((demoLibrary (fun x : ℚ => x) demoGrid).readUnstructuredGrid "vtu").numberOfCells = 2 ∧
    3 * 2 < 2147483648 ∧
    (readUnstructuredGrid (demoLibrary (fun x : ℚ => x) demoGrid)
      (demoObject emptyDataSet emptyDataSet) "vtu").1 = (2 : Nat) ∧
    (readUnstructuredGrid (demoLibrary (fun x : ℚ => x) demoGrid)
      (demoObject emptyDataSet emptyDataSet) "vtu").2.fieldVectorVector.length = 3 * 2 :=
  ⟨rfl, by decide,
    (readUnstructuredGrid_sizes (demoLibrary (fun x : ℚ => x) demoGrid)
      (demoObject emptyDataSet emptyDataSet) "vtu" 2 rfl (by decide)).1,
    (readUnstructuredGrid_sizes (demoLibrary (fun x : ℚ => x) demoGrid)
      (demoObject emptyDataSet emptyDataSet) "vtu" 2 rfl (by decide)).2.2.2.1⟩

/-! ## Signed distance and region -/

/-- C1: on a grid of `N` cells carrying the scalar per-cell fields "flowRegion" and "sdf2", in an
object whose `nCells` is that count, `computeSDFAndRegion` returns a buffer of length `3 * N`
whose entry `i` is the signed distance at the centre of cell `i`, whose entry `N + i` is `0` when
that distance is negative and the cell's "flowRegion" value otherwise (a distance of zero leaves
it), and whose entry `2 * N + i` is the cell's "sdf2" value. -/
theorem computeSDFAndRegion_output (X : Library α κ) (s : VTK α κ) (buffer : String) (N : Nat)
    (fr s2 : DataArray α)
    (hN : s.grid.numberOfCells = N) (hfit : 3 * N < 2147483648) (hn : s.nCells = N)
    (hfr : s.grid.cellData.getArray "flowRegion" = some fr)
    (hfr1 : fr.nComp = 1) (hfrl : fr.values.length = N)
    (hs : s.grid.cellData.getArray "sdf2" = some s2)
    (hs1 : s2.nComp = 1) (hsl : s2.values.length = N) :
    ∃ out, (computeSDFAndRegion X s buffer).1 = .ok out ∧ out.length = 3 * N ∧
      ∀ i, i < N → ∃ v w, fr.values[i]? = some v ∧ s2.values[i]? = some w ∧
        out[i]? = some (X.signedDistance (X.readPolyData buffer) (X.cellCenter s.grid i)) ∧
        out[N + i]? = some
          (if X.signedDistance (X.readPolyData buffer) (X.cellCenter s.grid i) < 0 then 0
           else v) ∧
        out[2 * N + i]? = some w := by
  obtain ⟨acc, hacc, -, -, -, hlen, hall⟩ :=
    sdfLoop_run X s buffer N fr s2 hfit hfr1 hfrl hs1 hsl
  refine ⟨acc.2, ?_, hlen, ?_⟩
  · rw [computeSDFAndRegion_eq X s buffer N fr s2 acc hN hfit hn hfr hs hacc]
  · intro i hi
    obtain ⟨v, w, a1, a2, -, a4, a5, a6⟩ := hall i hi
    exact ⟨v, w, a1, a2, a4, a5, a6⟩

/-- Witness of C1: the two-cell grid, whose cell centres lie at signed distance -1 and 1. -/
theorem computeSDFAndRegion_output_witness :
    ∃ out, (computeSDFAndRegion (demoLibrary (fun x : ℚ => x) demoSurface)
        (demoObject demoGrid emptyDataSet) "vtp").1 = .ok out ∧ out.length = 3 * 2 ∧
      ∀ i, i < 2 → ∃ v w,
        (DataArray.mk "flowRegion" 1 [(5 : ℚ), 6]).values[i]? = some v ∧
        (DataArray.mk "sdf2" 1 [(8 : ℚ), 9]).values[i]? = some w ∧
        out[i]? = some ((demoLibrary (fun x : ℚ => x) demoSurface).signedDistance
          ((demoLibrary (fun x : ℚ => x) demoSurface).readPolyData "vtp")
          ((demoLibrary (fun x : ℚ => x) demoSurface).cellCenter
            (demoObject demoGrid emptyDataSet).grid i)) ∧
        out[2 + i]? = some
          (if (demoLibrary (fun x : ℚ => x) demoSurface).signedDistance
              ((demoLibrary (fun x : ℚ => x) demoSurface).readPolyData "vtp")
              ((demoLibrary (fun x : ℚ => x) demoSurface).cellCenter
                (demoObject demoGrid emptyDataSet).grid i) < 0 then 0
           else v) ∧
        out[2 * 2 + i]? = some w :=
  computeSDFAndRegion_output (demoLibrary (fun x : ℚ => x) demoSurface)
    (demoObject demoGrid emptyDataSet) "vtp" 2
    (DataArray.mk "flowRegion" 1 [5, 6]) (DataArray.mk "sdf2" 1 [8, 9])
    rfl (by decide) rfl rfl rfl rfl rfl rfl rfl

/-- C9, amended: on a grid of at least one cell that lacks the cell array "flowRegion" or the
cell array "sdf2", `computeSDFAndRegion` ends in an error at the first cell and the object,
with it the grid's cell data and active scalars, is as before the call. -/
theorem computeSDFAndRegion_missing (X : Library α κ) (s : VTK α κ) (buffer : String)
    (N : Nat) (hN : s.grid.numberOfCells = N) (hpos : 0 < N) (hfit : N < 2147483648)
    (hmiss : s.grid.cellData.getArray "flowRegion" = none ∨
      s.grid.cellData.getArray "sdf2" = none) :
    (∃ e, (computeSDFAndRegion X s buffer).1 = .error e) ∧
    (computeSDFAndRegion X s buffer).2 = s := by
  have e1 : toInt32 (N : Int) = N := toInt32_eq_self _ (by omega) (by omega)
  obtain ⟨k, rfl⟩ : ∃ k, N = k + 1 := ⟨N - 1, by omega⟩
  obtain ⟨e, he⟩ := sdfStep_missing X s.grid (X.readPolyData buffer)
    (s.grid.cellData.getArray "flowRegion") (s.grid.cellData.getArray "sdf2") ((k + 1 : Nat) : Int)
    (DataArray.setNumberOfTuples X.junk
      (DataArray.setNumberOfComponents (DataArray.mk "sdf1" 1 []) 1) s.nCells.toNat,
     List.replicate (toSizeT (toInt32 (((k + 1 : Nat) : Int) * 3))) 0) 0 hmiss
  have hfold : (List.range (k + 1)).foldlM
      (sdfStep X s.grid (X.readPolyData buffer) (s.grid.cellData.getArray "flowRegion")
        (s.grid.cellData.getArray "sdf2") ((k + 1 : Nat) : Int))
      (DataArray.setNumberOfTuples X.junk
        (DataArray.setNumberOfComponents (DataArray.mk "sdf1" 1 []) 1) s.nCells.toNat,
       List.replicate (toSizeT (toInt32 (((k + 1 : Nat) : Int) * 3))) 0) = .error e := by
    rw [List.range_succ_eq_map, List.foldlM_cons, he]
    rfl
  refine ⟨⟨e, ?_⟩, ?_⟩ <;>
    simp only [computeSDFAndRegion, hN, e1, Int.toNat_ofNat, hfold]

/-- Witness of C9: the one-cell grid, which has no cell arrays. -/
theorem computeSDFAndRegion_missing_witness :
    (∃ e, (computeSDFAndRegion (demoLibrary (fun x : ℚ => x) demoSurface)
      (demoObject demoCellGrid emptyDataSet) "vtp").1 = .error e) ∧
    (computeSDFAndRegion (demoLibrary (fun x : ℚ => x) demoSurface)
      (demoObject demoCellGrid emptyDataSet) "vtp").2 = demoObject demoCellGrid emptyDataSet :=
  computeSDFAndRegion_missing (demoLibrary (fun x : ℚ => x) demoSurface)
    (demoObject demoCellGrid emptyDataSet) "vtp" 1 rfl (by decide) (by decide) (Or.inl rfl)

/-- C9, refuted as stated: a grid without cells has no cell arrays "flowRegion" and "sdf2", yet
`computeSDFAndRegion` returns normally, with an empty buffer, and attaches "sdf1" as the active
cell scalars. -/
theorem computeSDFAndRegion_missing_counterexample :
    (emptyDataSet : DataSet ℚ (DemoCell ℚ)).cellData.getArray "flowRegion" = none ∧
    (emptyDataSet : DataSet ℚ (DemoCell ℚ)).cellData.getArray "sdf2" = none ∧
    (computeSDFAndRegion (demoLibrary (fun x : ℚ => x) demoSurface)
      (demoObject emptyDataSet emptyDataSet) "vtp").1 = .ok [] ∧
    (computeSDFAndRegion (demoLibrary (fun x : ℚ => x) demoSurface)
      (demoObject emptyDataSet emptyDataSet) "vtp").2.grid.cellData =
        { arrays := [DataArray.mk "sdf1" 1 []], scalars := some 0 } ∧
    (demoObject emptyDataSet emptyDataSet : VTK ℚ (DemoCell ℚ)).grid.cellData =
        { arrays := [], scalars := none } :=
  ⟨rfl, rfl, rfl, rfl, rfl⟩

/-- C13, amended: on a grid of `N` cells with the scalar cell arrays "flowRegion" and "sdf2",
`computeSDFAndRegion` leaves `nCells`, both scratch buffers, the cells and the point data of the
grid as they were; the cell data afterwards are the cell data before with the array that was the
active scalars removed and "sdf1", holding the signed distances, added as the active scalars. So
"flowRegion" and "sdf2" are kept, values included, whenever neither was the active cell scalars
before the call. -/
theorem computeSDFAndRegion_frame (X : Library α κ) (s : VTK α κ) (buffer : String) (N : Nat)
    (fr s2 : DataArray α)
    (hN : s.grid.numberOfCells = N) (hfit : 3 * N < 2147483648) (hn : s.nCells = N)
    (hfr : s.grid.cellData.getArray "flowRegion" = some fr)
    (hfr1 : fr.nComp = 1) (hfrl : fr.values.length = N)
    (hs : s.grid.cellData.getArray "sdf2" = some s2)
    (hs1 : s2.nComp = 1) (hsl : s2.values.length = N) :
    (computeSDFAndRegion X s buffer).2.nCells = s.nCells ∧
    (computeSDFAndRegion X s buffer).2.fieldVectorVector = s.fieldVectorVector ∧
    (computeSDFAndRegion X s buffer).2.fieldScalarVector = s.fieldScalarVector ∧
    (computeSDFAndRegion X s buffer).2.grid.cells = s.grid.cells ∧
    (computeSDFAndRegion X s buffer).2.grid.pointData = s.grid.pointData ∧
    (computeSDFAndRegion X s buffer).2.grid.cellData = s.grid.cellData.setScalars
      (DataArray.mk "sdf1" 1 ((List.range N).map
        (fun i => X.signedDistance (X.readPolyData buffer) (X.cellCenter s.grid i)))) ∧
    (∃ j, (computeSDFAndRegion X s buffer).2.grid.cellData.scalars = some j ∧
      (computeSDFAndRegion X s buffer).2.grid.cellData.arrays[j]? =
        some (DataArray.mk "sdf1" 1 ((List.range N).map
          (fun i => X.signedDistance (X.readPolyData buffer) (X.cellCenter s.grid i))))) ∧
    ((∀ j b, s.grid.cellData.scalars = some j → s.grid.cellData.arrays[j]? = some b →
        b.name ≠ "flowRegion" ∧ b.name ≠ "sdf2") →
      (computeSDFAndRegion X s buffer).2.grid.cellData.getArray "flowRegion" = some fr ∧
      (computeSDFAndRegion X s buffer).2.grid.cellData.getArray "sdf2" = some s2) := by
  rw [computeSDFAndRegion_state X s buffer N fr s2 hN hfit hn hfr hfr1 hfrl hs hs1 hsl]
  refine ⟨rfl, rfl, rfl, rfl, rfl, rfl, (setScalars_spec _ _).1, ?_⟩
  intro hact
  constructor
  · rw [← hfr]
    exact (setScalars_spec _ _).2 "flowRegion" (show "sdf1" ≠ "flowRegion" by decide)
      (fun j b hj hb => (hact j b hj hb).1)
  · rw [← hs]
    exact (setScalars_spec _ _).2 "sdf2" (show "sdf1" ≠ "sdf2" by decide)
      (fun j b hj hb => (hact j b hj hb).2)

/-- Witness of C13: the two-cell grid, which has no active cell scalars. -/
theorem computeSDFAndRegion_frame_witness :
    (computeSDFAndRegion (demoLibrary (fun x : ℚ => x) demoSurface)
      (demoObject demoGrid emptyDataSet) "vtp").2.fieldVectorVector =
        (demoObject demoGrid emptyDataSet).fieldVectorVector ∧
    (computeSDFAndRegion (demoLibrary (fun x : ℚ => x) demoSurface)
      (demoObject demoGrid emptyDataSet) "vtp").2.grid.cellData.getArray "flowRegion" =
        some (DataArray.mk "flowRegion" 1 [5, 6]) ∧
    (computeSDFAndRegion (demoLibrary (fun x : ℚ => x) demoSurface)
      (demoObject demoGrid emptyDataSet) "vtp").2.grid.cellData.getArray "sdf2" =
        some (DataArray.mk "sdf2" 1 [8, 9]) :=
  have h := computeSDFAndRegion_frame (demoLibrary (fun x : ℚ => x) demoSurface)
    (demoObject demoGrid emptyDataSet) "vtp" 2
    (DataArray.mk "flowRegion" 1 [5, 6]) (DataArray.mk "sdf2" 1 [8, 9])
    rfl (by decide) rfl rfl rfl rfl rfl rfl rfl
  ⟨h.2.1, h.2.2.2.2.2.2.2 (fun j b hj _ => by cases hj)⟩

/-- C13, refuted as stated: on the two-cell grid whose active cell scalars are "flowRegion", the
call removes the array "flowRegion" from the grid. -/
theorem computeSDFAndRegion_frame_counterexample :
    (demoObject demoGridActive emptyDataSet : VTK ℚ (DemoCell ℚ)).grid.cellData.getArray
      "flowRegion" = some (DataArray.mk "flowRegion" 1 [5, 6]) ∧
    (demoObject demoGridActive emptyDataSet : VTK ℚ (DemoCell ℚ)).grid.cellData.getArray
      "sdf2" = some (DataArray.mk "sdf2" 1 [8, 9]) ∧
    (computeSDFAndRegion (demoLibrary (fun x : ℚ => x) demoSurface)
      (demoObject demoGridActive emptyDataSet) "vtp").2.grid.cellData.getArray "flowRegion" =
        none := by
  refine ⟨rfl, rfl, ?_⟩
  rw [computeSDFAndRegion_state (demoLibrary (fun x : ℚ => x) demoSurface)
    (demoObject demoGridActive emptyDataSet) "vtp" 2
    (DataArray.mk "flowRegion" 1 [5, 6]) (DataArray.mk "sdf2" 1 [8, 9])
    rfl (by decide) rfl rfl rfl rfl rfl rfl rfl]
  rfl

end Theorems

section FieldTheorems

variable {α κ : Type}

/-! ## Field reconstruction -/

/-- C11: with `nCells = N` and a vector scratch buffer of length `3 * N`, `update(fieldName, 3)`
builds an array named `fieldName` of three components and `N` tuples whose tuple `i` is
`(buf[i], buf[i + N], buf[i + 2 * N])`, each of these places lying inside the buffer, and hands
it to `AddArray` on the grid's cell data; the second `components == 3` block of the loop leaves
what the first block did. -/
theorem update_vector (X : Library α κ) (s : VTK α κ) (fieldName : String) (N : Nat)
    (hn : s.nCells = N) (hlen : s.fieldVectorVector.length = 3 * N)
    (hfit : 3 * N < 2147483648) :
    (∃ a, updateArray X s fieldName 3 = .ok a ∧
      a.name = fieldName ∧ a.nComp = 3 ∧ a.numTuples = N ∧
      (∀ i, i < N → ∃ x y z,
        s.fieldVectorVector[i]? = some x ∧ s.fieldVectorVector[i + N]? = some y ∧
        s.fieldVectorVector[i + 2 * N]? = some z ∧
        a.values[3 * i]? = some x ∧ a.values[3 * i + 1]? = some y ∧
        a.values[3 * i + 2]? = some z) ∧
      update X s fieldName 3 = (.ok (), { s with grid := (X.cellDataToPointData
        { s.grid with cellData := (s.grid.cellData.addArray a).1 }) }) ∧
      (s.grid.cellData.addArray a).1.arrays[(s.grid.cellData.addArray a).2]? = some a) ∧
    ∀ (array : DataArray α) (i : Nat), updateStep s 3 array i = updateBlock s 3 array i := by
  refine ⟨?_, fun array i => updateStep_eq_block s 3 array i⟩
  obtain ⟨a, ha, hnm, hc, hl, hall⟩ := updateArray_three X s fieldName N hn hlen hfit
  refine ⟨a, ha, hnm, hc, ?_, hall, ?_, addArray_index _ a⟩
  · simp only [DataArray.numTuples, hc, hl]
    omega
  · simp only [update, ha]

/-- Witness of C11: the two-cell grid after a load, its vector scratch buffer holding six
zeros. -/
theorem update_vector_witness :
    ∃ a, updateArray (demoLibrary (fun x : ℚ => x) demoGrid)
        (demoObject demoGrid emptyDataSet) "U" 3 = .ok a ∧
      a.name = "U" ∧ a.nComp = 3 ∧ a.numTuples = 2 :=
  have h := (update_vector (demoLibrary (fun x : ℚ => x) demoGrid)
    (demoObject demoGrid emptyDataSet) "U" 2 rfl rfl (by decide)).1
  h.elim (fun a ha => ⟨a, ha.1, ha.2.1, ha.2.2.1, ha.2.2.2.1⟩)

/-- C10, the divergence: for a component count `c ≥ 1` other than 3 the loop of `update` writes
nothing, and the array handed to `AddArray` has `c` components and `3 * N / c` tuples, the
length of the vector scratch buffer divided by `c`, whatever the cell count is. -/
theorem update_tuples (X : Library α κ) (s : VTK α κ) (fieldName : String) (c : Int) (N : Nat)
    (hlen : s.fieldVectorVector.length = 3 * N)
    (hc1 : 1 ≤ c) (hc3 : c ≠ 3) (hcfit : c < 2147483648) :
    ∃ a, updateArray X s fieldName c = .ok a ∧ a.name = fieldName ∧ a.nComp = c.toNat ∧
      a.numTuples = 3 * N / c.toNat ∧
      update X s fieldName c = (.ok (), { s with grid := (X.cellDataToPointData
        { s.grid with cellData := (s.grid.cellData.addArray a).1 }) }) := by
  have hs : toSizeT c = c.toNat := toSizeT_of_nonneg c (by omega) (by omega)
  have hpos : 0 < c.toNat := by omega
  have hloop : ∀ (l : List Nat) (a : DataArray α), l.foldlM (updateStep s c) a = .ok a := by
    intro l
    induction l with
    | nil => intro a; rfl
    | cons i l ih =>
      intro a
      have hstep : updateStep s c a i = .ok a := by
        simp only [updateStep, updateBlock, hc3, if_false]
        rfl
      rw [List.foldlM_cons, hstep]
      exact ih a
  have ha : updateArray X s fieldName c = .ok
      (DataArray.setNumberOfTuples X.junk
        (DataArray.setNumberOfComponents (DataArray.mk fieldName 1 []) c) (3 * N / c.toNat)) := by
    simp only [updateArray, hs, hlen, Nat.ne_of_gt hpos, if_false, hloop]
    rfl
  refine ⟨_, ha, rfl, ?_, ?_, ?_⟩
  · simp only [DataArray.setNumberOfTuples, DataArray.setNumberOfComponents,
      show (0 : Int) < c by omega, if_true]
  · simp only [DataArray.numTuples, DataArray.setNumberOfTuples,
      DataArray.setNumberOfComponents, show (0 : Int) < c by omega, if_true,
      List.length_replicate]
    exact Nat.mul_div_cancel _ hpos
  · simp only [update, ha]

/-- Witness of C10: a scalar field on the one-cell grid gets three tuples. -/
theorem update_tuples_witness :
    ∃ a, updateArray (demoLibrary (fun x : ℚ => x) demoCellGrid)
        (demoObject demoCellGrid emptyDataSet) "p" 1 = .ok a ∧
      a.numTuples = 3 ∧ (demoCellGrid : DataSet ℚ (DemoCell ℚ)).numberOfCells = 1 :=
  have h := update_tuples (demoLibrary (fun x : ℚ => x) demoCellGrid)
    (demoObject demoCellGrid emptyDataSet) "p" 1 1 rfl (by decide) (by decide) (by decide)
  h.elim (fun a ha => ⟨a, ha.1, ha.2.2.2.1, rfl⟩)

end FieldTheorems

end JsFluids
